import Mathlib

/-!
Verification of the CI/CD configuration of the aeon repository.

The repository excerpt consists of GitHub Actions workflow and composite-action
YAML, changelogs, documentation pages, a pre-commit configuration and example
notebooks.  The definitions below are a shallow embedding of the YAML
configuration: every step, key template, retry parameter and run command is
transcribed from the corresponding source file.  Interpolated template strings
(`${{ ... }}`) become Lean functions of the interpolated values.
-/

namespace AeonCI

/-- Character-list prefix test, structural so that the kernel can evaluate it. -/
def isPrefixChars : List Char → List Char → Bool
  | [], _ => true
  | _ :: _, [] => false
  | a :: as, b :: bs => a == b && isPrefixChars as bs

/-- `strIsPrefixOf p s` holds when the string `p` is a prefix of `s`. -/
def strIsPrefixOf (p s : String) : Bool :=
  isPrefixChars p.data s.data

theorem isPrefixChars_append (p rest : List Char) :
    isPrefixChars p (p ++ rest) = true := by
  induction p with
  | nil => rfl
  | cons a as ih => simp [isPrefixChars, ih]

theorem strIsPrefixOf_append (p rest : String) :
    strIsPrefixOf p (p ++ rest) = true := by
  show isPrefixChars p.data (p.data ++ rest.data) = true
  exact isPrefixChars_append p.data rest.data

theorem findSome?_single {α β : Type} (f : α → Option β) (a : α) :
    [a].findSome? f = f a := by
  cases h : f a <;> simp [List.findSome?, h]

theorem str_data_ext {a b : String} (h : a.data = b.data) : a = b := by
  cases a; cases b; exact congrArg String.mk (by simpa using h)

theorem data_append (a b : String) : (a ++ b).data = a.data ++ b.data := rfl

/-! ## The `numba_cache` composite action

Transcribed from the action file `Numba cache setup` (the document following
the changelog index in the repository excerpt).  Inputs `cache_name`,
`runner_os` and `python_version` are required; `restore_cache` is optional
with default `"true"`. -/

structure NumbaCacheInputs where
  cache_name : String
  runner_os : String
  python_version : String
  restore_cache : String := "true"
deriving DecidableEq, Repr

/-- The fixed CPU-feature string exported as `NUMBA_CPU_FEATURES`
(step `Set numba CPU features env`). -/
def numbaCpuFeatures : String :=
  "+64bit +adx +aes +avx +avx2 -avx512bf16 -avx512bitalg -avx512bw -avx512cd -avx512dq -avx512er -avx512f -avx512ifma -avx512pf -avx512vbmi -avx512vbmi2 -avx512vl -avx512vnni -avx512vpopcntdq +bmi +bmi2 -cldemote -clflushopt -clwb -clzero +cmov +cx16 +cx8 -enqcmd +f16c +fma -fma4 +fsgsbase +fxsr -gfni +invpcid -lwp +lzcnt +mmx +movbe -movdir64b -movdiri -mwaitx +pclmul -pconfig -pku +popcnt -prefetchwt1 +prfchw -ptwrite -rdpid +rdrnd +rdseed +rtm +sahf -sgx -sha -shstk +sse +sse2 +sse3 +sse4.1 +sse4.2 -sse4a +ssse3 -tbm -vaes -vpclmulqdq -waitpkg -wbnoinvd -xop +xsave -xsavec +xsaveopt -xsaves"

/-- Cache key template `numba-<cache_name>-<runner_os>-<python_version>-<date>`
used by the `Restore cache` step (`key:`) of the numba cache action. -/
def numbaKey (name os pv date : String) : String :=
  "numba-" ++ name ++ "-" ++ os ++ "-" ++ pv ++ "-" ++ date

/-- Date-less key template `numba-<cache_name>-<runner_os>-<python_version>-`
used by the `Restore cache` step (`restore-keys:`). -/
def numbaKeyPrefix (name os pv : String) : String :=
  "numba-" ++ name ++ "-" ++ os ++ "-" ++ pv ++ "-"

/-- One effect a step of the numba cache action can have. -/
inductive NCEffect where
  /-- `echo "name=value" >> $GITHUB_ENV` -/
  | envExport (name : String) (value : String)
  /-- `echo dir >> %GITHUB_PATH%` -/
  | pathPrepend (dir : String)
  /-- `actions/cache/restore@v4` with a key and restore-keys -/
  | cacheRestore (path : String) (key : String) (restoreKeys : List String)
deriving DecidableEq, Repr

/-- A step of the composite action: its `name:`, the evaluated `if:`
condition (literally `true` when no `if:` is present) and its effect. -/
structure NCStep where
  name : String
  cond : Bool
  effect : NCEffect
deriving DecidableEq, Repr

/-- The step list of the `Numba cache setup` composite action, in source
order.  `workspace` stands for `${{ github.workspace }}` and `date` for the
value `$(date +'%d/%m/%Y')` computed by the `Get Current Date` step and
interpolated as `${{ env.CURRENT_DATE }}` in the restore key. -/
def numbaCacheSteps (i : NumbaCacheInputs) (workspace date : String) :
    List NCStep :=
  [⟨"Set numba cache env", true,
      .envExport "NUMBA_CACHE_DIR" (workspace ++ "/.numba_cache")⟩,
   ⟨"Set numba CPU env", true,
      .envExport "NUMBA_CPU_NAME" "generic"⟩,
   ⟨"Set numba CPU features env", true,
      .envExport "NUMBA_CPU_FEATURES" numbaCpuFeatures⟩,
   ⟨"Set CACHING_CICD_RUNNING env", true,
      .envExport "CACHING_CICD_RUNNING" "1"⟩,
   ⟨"Get Current Date", true,
      .envExport "CURRENT_DATE" date⟩,
   ⟨"Use GNU tar instead BSD tar if Windows", i.runner_os == "Windows",
      .pathPrepend "C:\\Program Files\\Git\\usr\\bin"⟩,
   ⟨"Restore cache", i.restore_cache == "true",
      .cacheRestore (workspace ++ "/.numba_cache")
        (numbaKey i.cache_name i.runner_os i.python_version date)
        [numbaKeyPrefix i.cache_name i.runner_os i.python_version]⟩]

/-- The environment variables a list of steps writes to `$GITHUB_ENV`,
in order: an `envExport` step contributes its pair when its condition holds. -/
def exportedEnv (steps : List NCStep) : List (String × String) :=
  steps.filterMap fun s =>
    match s.effect with
    | .envExport n v => if s.cond then some (n, v) else none
    | _ => none

/-- The environment variables exported by one invocation of the numba cache
action. -/
def numbaCacheEnv (i : NumbaCacheInputs) (workspace date : String) :
    List (String × String) :=
  exportedEnv (numbaCacheSteps i workspace date)

/-- Whether the `Restore cache` step's `if:` condition
(`inputs.restore_cache == 'true'`) holds. -/
def restoreStepEnabled (i : NumbaCacheInputs) : Bool :=
  i.restore_cache == "true"

/-- Behaviour of `actions/cache/restore@v4` (documented GitHub semantics):
an exact hit on `key` wins; otherwise each entry of `restore-keys` is tried
in order as a key prefix against the available cache entries `store`. -/
def cacheLookup (store : List String) (key : String)
    (restoreKeys : List String) : Option String :=
  if store.contains key then some key
  else restoreKeys.findSome? fun rk => store.find? fun k => strIsPrefixOf rk k

/-- The cache entry one invocation of the numba cache action restores, if
any: the `Restore cache` step runs only when its condition holds. -/
def numbaRestoreResult (i : NumbaCacheInputs) (date : String)
    (store : List String) : Option String :=
  if restoreStepEnabled i then
    cacheLookup store (numbaKey i.cache_name i.runner_os i.python_version date)
      [numbaKeyPrefix i.cache_name i.runner_os i.python_version]
  else none

/-- The names of the environment variables one invocation of the numba cache
action exports. -/
def numbaCacheEnvNames (i : NumbaCacheInputs) (workspace date : String) :
    List String :=
  (numbaCacheEnv i workspace date).map Prod.fst

/-- C1 (counterexample): the numba cache action does not export only the four
variables `NUMBA_CACHE_DIR`, `NUMBA_CPU_NAME`, `NUMBA_CPU_FEATURES`,
`CACHING_CICD_RUNNING`: at a concrete invocation it also exports
`CURRENT_DATE`, so the claimed list of exported names is wrong. -/
theorem numba_cache_exports_more_than_four :
    numbaCacheEnvNames ⟨"pytest", "Linux", "3.12", "true"⟩ "/ws" "01/01/2025" ≠
      ["NUMBA_CACHE_DIR", "NUMBA_CPU_NAME", "NUMBA_CPU_FEATURES",
       "CACHING_CICD_RUNNING"] ∧
    "CURRENT_DATE" ∈
      numbaCacheEnvNames ⟨"pytest", "Linux", "3.12", "true"⟩ "/ws" "01/01/2025" := by
  constructor
  · show ["NUMBA_CACHE_DIR", "NUMBA_CPU_NAME", "NUMBA_CPU_FEATURES",
      "CACHING_CICD_RUNNING", "CURRENT_DATE"] ≠ _
    decide
  · show "CURRENT_DATE" ∈ ["NUMBA_CACHE_DIR", "NUMBA_CPU_NAME",
      "NUMBA_CPU_FEATURES", "CACHING_CICD_RUNNING", "CURRENT_DATE"]
    decide

/-- C1 (amended): every invocation of the numba cache action exports exactly
the environment variables `NUMBA_CACHE_DIR` (set to
`<workspace>/.numba_cache`), `NUMBA_CPU_NAME` (`generic`),
`NUMBA_CPU_FEATURES` (the fixed feature string), `CACHING_CICD_RUNNING`
(`1`) and `CURRENT_DATE` (the current date), and no other variable. -/
theorem numba_cache_env_exports (i : NumbaCacheInputs) (ws date : String) :
    numbaCacheEnv i ws date =
      [("NUMBA_CACHE_DIR", ws ++ "/.numba_cache"),
       ("NUMBA_CPU_NAME", "generic"),
       ("NUMBA_CPU_FEATURES", numbaCpuFeatures),
       ("CACHING_CICD_RUNNING", "1"),
       ("CURRENT_DATE", date)] := rfl

/-- Witness for the amended C1 at a concrete invocation. -/
theorem numba_cache_env_exports_witness :
    numbaCacheEnv ⟨"pytest", "Linux", "3.12", "true"⟩ "/ws" "01/01/2025" =
      [("NUMBA_CACHE_DIR", "/ws" ++ "/.numba_cache"),
       ("NUMBA_CPU_NAME", "generic"),
       ("NUMBA_CPU_FEATURES", numbaCpuFeatures),
       ("CACHING_CICD_RUNNING", "1"),
       ("CURRENT_DATE", "01/01/2025")] :=
  numba_cache_env_exports ⟨"pytest", "Linux", "3.12", "true"⟩ "/ws" "01/01/2025"

/-- C2: when `restore_cache = "true"` the `Restore cache` step runs; it tries
the exact dated key `numba-<cache_name>-<runner_os>-<python_version>-<date>`
first, and when no cache entry matches that key it falls back to the date-less
prefix key `numba-<cache_name>-<runner_os>-<python_version>-`. -/
theorem numba_restore_dated_then_dateless_fallback
    (i : NumbaCacheInputs) (ws date : String) (store : List String)
    (h : i.restore_cache = "true") :
    restoreStepEnabled i = true ∧
    (numbaCacheSteps i ws date).find? (fun s => s.name == "Restore cache") =
      some ⟨"Restore cache", true,
        .cacheRestore (ws ++ "/.numba_cache")
          (numbaKey i.cache_name i.runner_os i.python_version date)
          [numbaKeyPrefix i.cache_name i.runner_os i.python_version]⟩ ∧
    (store.contains (numbaKey i.cache_name i.runner_os i.python_version date) =
        true →
      numbaRestoreResult i date store =
        some (numbaKey i.cache_name i.runner_os i.python_version date)) ∧
    (store.contains (numbaKey i.cache_name i.runner_os i.python_version date) =
        false →
      numbaRestoreResult i date store =
        store.find? fun k =>
          strIsPrefixOf
            (numbaKeyPrefix i.cache_name i.runner_os i.python_version) k) := by
  obtain ⟨cn, os, pv, rc⟩ := i
  simp only at h
  subst h
  refine ⟨rfl, rfl, ?_, ?_⟩
  · intro hc
    simp only at hc
    show cacheLookup store (numbaKey cn os pv date) [numbaKeyPrefix cn os pv] = _
    unfold cacheLookup
    rw [hc]
    rfl
  · intro hc
    simp only at hc
    show cacheLookup store (numbaKey cn os pv date) [numbaKeyPrefix cn os pv] = _
    unfold cacheLookup
    rw [hc]
    simp [findSome?_single]

/-- Witness for C2 at a concrete invocation. -/
theorem numba_restore_dated_then_dateless_fallback_witness :
    restoreStepEnabled ⟨"pytest", "Linux", "3.12", "true"⟩ = true :=
  (numba_restore_dated_then_dateless_fallback
    ⟨"pytest", "Linux", "3.12", "true"⟩ "/ws" "01/01/2025" [] rfl).1

/-- C8: when `restore_cache = "false"` the `Restore cache` step does not run —
the action still exports all five environment variables but restores nothing
from the cache — and an invocation that omits `restore_cache` gets the
default value `"true"`. -/
theorem numba_cache_no_restore_when_false
    (i : NumbaCacheInputs) (ws date : String) (store : List String)
    (h : i.restore_cache = "false") :
    restoreStepEnabled i = false ∧
    ((numbaCacheSteps i ws date).find?
        (fun s => s.name == "Restore cache")).map NCStep.cond = some false ∧
    numbaCacheEnvNames i ws date =
      ["NUMBA_CACHE_DIR", "NUMBA_CPU_NAME", "NUMBA_CPU_FEATURES",
       "CACHING_CICD_RUNNING", "CURRENT_DATE"] ∧
    numbaRestoreResult i date store = none ∧
    ({ cache_name := i.cache_name, runner_os := i.runner_os,
       python_version := i.python_version } : NumbaCacheInputs).restore_cache =
      "true" := by
  obtain ⟨cn, os, pv, rc⟩ := i
  simp only at h
  subst h
  exact ⟨rfl, rfl, rfl, rfl, rfl⟩

/-- Witness for C8 at a concrete invocation. -/
theorem numba_cache_no_restore_when_false_witness :
    restoreStepEnabled ⟨"pytest", "Linux", "3.12", "false"⟩ = false :=
  (numba_cache_no_restore_when_false
    ⟨"pytest", "Linux", "3.12", "false"⟩ "/ws" "01/01/2025" [] rfl).1

/-! ## The `cpu_all_extras` composite action

Transcribed from `.github/actions/cpu_all_extras/action.yml`
(`Pip install all_extras with CPU versions`). -/

structure CpuAllExtrasInputs where
  python_version : String := "3.12"
  additional_extras : String := ""
deriving DecidableEq, Repr

/-- `if:` condition of the `Install CPU TensorFlow` step:
`runner.os == 'Linux' && inputs.python_version != '3.13'`. -/
def installTensorflowCpu (runnerOs : String) (i : CpuAllExtrasInputs) : Bool :=
  runnerOs == "Linux" && i.python_version != "3.13"

/-- Command of the `Install CPU TensorFlow` step. -/
def installTensorflowCommand : String := "python -m pip install tensorflow-cpu"

/-- `if:` condition of the `Install CPU PyTorch` step: `runner.os == 'Linux'`. -/
def installCpuTorch (runnerOs : String) : Bool := runnerOs == "Linux"

/-- Command of the `Install CPU PyTorch` step. -/
def installTorchCommand : String :=
  "python -m pip install torch --index-url https://download.pytorch.org/whl/cpu"

/-- Command of the `Install dependencies` step:
`python -m pip install .[all_extras<','-when-additional_extras-nonempty><additional_extras>]`. -/
def installDepsCommand (i : CpuAllExtrasInputs) : String :=
  "python -m pip install .[all_extras" ++
    (if i.additional_extras != "" then "," else "") ++ i.additional_extras ++ "]"

/-- C9: tensorflow-cpu is installed iff the runner OS is Linux and the Python
version is not 3.13; CPU-only torch is installed iff the runner OS is Linux;
the dependency install always uses the `all_extras` group and appends a comma
followed by `additional_extras` exactly when `additional_extras` is
non-empty. -/
theorem cpu_all_extras_behavior (os : String) (i : CpuAllExtrasInputs) :
    (installTensorflowCpu os i = true ↔
      os = "Linux" ∧ i.python_version ≠ "3.13") ∧
    (installCpuTorch os = true ↔ os = "Linux") ∧
    (i.additional_extras = "" →
      installDepsCommand i = "python -m pip install .[all_extras]") ∧
    (i.additional_extras ≠ "" →
      installDepsCommand i =
        "python -m pip install .[all_extras," ++ i.additional_extras ++ "]") := by
  obtain ⟨pv, ae⟩ := i
  refine ⟨?_, ?_, ?_, ?_⟩
  · simp [installTensorflowCpu]
  · simp [installCpuTorch]
  · intro h
    simp only at h
    subst h
    rfl
  · intro h
    simp only at h
    have hb : (ae != "") = true := bne_iff_ne.mpr h
    unfold installDepsCommand
    simp only [hb]
    rfl

/-- Witness for C9 at a concrete invocation. -/
theorem cpu_all_extras_behavior_witness :
    installDepsCommand ⟨"3.12", "dev"⟩ =
      "python -m pip install .[all_extras,dev]" :=
  (cpu_all_extras_behavior "Linux" ⟨"3.12", "dev"⟩).2.2.2 (by decide)

/-! ## Numba cache save keys of the `Periodic tests` workflow

Transcribed from the `Save new cache` steps of
`.github/workflows/periodic_tests.yml`. -/

/-- `Save new cache` key of the `run-notebook-examples` job:
`numba-run-notebook-examples-${{ runner.os }}-3.12-${{ env.CURRENT_DATE }}`. -/
def saveKeyRunNotebookExamples (os date : String) : String :=
  "numba-run-notebook-examples-" ++ os ++ "-3.12-" ++ date

/-- `Save new cache` key of the `test-no-soft-deps` job:
`numba-test-no-soft-deps-${{ runner.os }}-3.12-${{ env.CURRENT_DATE }}`. -/
def saveKeyTestNoSoftDeps (os date : String) : String :=
  "numba-test-no-soft-deps-" ++ os ++ "-3.12-" ++ date

/-- `Save new cache` key of the `pytest` job:
`numba-pytest-${{ runner.os }}-${{ matrix.python-version}}-${{ env.CURRENT_DATE }}`. -/
def saveKeyPytest (os pv date : String) : String :=
  "numba-pytest-" ++ os ++ "-" ++ pv ++ "-" ++ date

/-- C5: for each cache-saving job of `Periodic tests`, the save key equals the
dated restore key the numba cache action computes for the same cache name,
runner OS and Python version, and the action's date-less fallback prefix is a
prefix of the save key, so a saved cache is restorable by a later run with
equal inputs. -/
theorem periodic_save_keys_match_restore_keys (os pv date : String) :
    saveKeyRunNotebookExamples os date =
      numbaKey "run-notebook-examples" os "3.12" date ∧
    saveKeyTestNoSoftDeps os date =
      numbaKey "test-no-soft-deps" os "3.12" date ∧
    saveKeyPytest os pv date = numbaKey "pytest" os pv date ∧
    strIsPrefixOf (numbaKeyPrefix "run-notebook-examples" os "3.12")
      (saveKeyRunNotebookExamples os date) = true ∧
    strIsPrefixOf (numbaKeyPrefix "test-no-soft-deps" os "3.12")
      (saveKeyTestNoSoftDeps os date) = true ∧
    strIsPrefixOf (numbaKeyPrefix "pytest" os pv)
      (saveKeyPytest os pv date) = true := by
  have h1 : saveKeyRunNotebookExamples os date =
      numbaKey "run-notebook-examples" os "3.12" date := by
    apply str_data_ext
    simp only [saveKeyRunNotebookExamples, numbaKey, data_append,
      List.append_assoc]
    rfl
  have h2 : saveKeyTestNoSoftDeps os date =
      numbaKey "test-no-soft-deps" os "3.12" date := by
    apply str_data_ext
    simp only [saveKeyTestNoSoftDeps, numbaKey, data_append, List.append_assoc]
    rfl
  have hp1 : saveKeyRunNotebookExamples os date =
      numbaKeyPrefix "run-notebook-examples" os "3.12" ++ date := h1
  have hp2 : saveKeyTestNoSoftDeps os date =
      numbaKeyPrefix "test-no-soft-deps" os "3.12" ++ date := h2
  refine ⟨h1, h2, rfl, ?_, ?_, ?_⟩
  · rw [hp1]; exact strIsPrefixOf_append _ date
  · rw [hp2]; exact strIsPrefixOf_append _ date
  · exact strIsPrefixOf_append _ date

/-- Witness for C5 at a concrete OS, Python version and date. -/
theorem periodic_save_keys_match_restore_keys_witness :
    saveKeyPytest "Linux" "3.12" "01/01/2025" =
      numbaKey "pytest" "Linux" "3.12" "01/01/2025" :=
  (periodic_save_keys_match_restore_keys "Linux" "3.12" "01/01/2025").2.2.1

/-! ## Retry wrappers across the CI configuration

Every step that `uses: nick-fields/retry@v3`, with its `timeout_minutes:` and
`max_attempts:` values, transcribed from all workflow and action files, and
the full list of distinct actions referenced by any `uses:` line. -/

structure RetryStep where
  workflow : String
  job : String
  step : String
  timeout_minutes : Nat
  max_attempts : Nat
deriving DecidableEq, Repr

def allRetrySteps : List RetryStep :=
  [⟨"cpu_all_extras action", "-", "Install CPU TensorFlow", 30, 3⟩,
   ⟨"cpu_all_extras action", "-", "Install CPU PyTorch", 30, 3⟩,
   ⟨"cpu_all_extras action", "-", "Install dependencies", 30, 3⟩,
   ⟨"Periodic tests", "run-notebook-examples", "Install dependencies", 30, 3⟩,
   ⟨"Periodic tests", "test-core-imports", "Install aeon and dependencies", 30, 3⟩,
   ⟨"Periodic tests", "test-no-soft-deps", "Install aeon and dependencies", 30, 3⟩,
   ⟨"Periodic tests", "pytest", "Install aeon and dependencies", 30, 3⟩,
   ⟨"Periodic tests", "doctests", "Install aeon and dependencies", 30, 3⟩,
   ⟨"Periodic tests", "multithreaded-estimators", "Install aeon and dependencies", 30, 3⟩,
   ⟨"Periodic tests", "codecov", "Install aeon and dependencies", 30, 3⟩,
   ⟨"Release", "test-wheels", "Windows install", 30, 3⟩,
   ⟨"Release", "test-wheels", "Unix install", 30, 3⟩,
   ⟨"PR pytest", "test-no-soft-deps", "Install aeon and dependencies", 30, 3⟩,
   ⟨"PR typecheck", "typecheck", "Install aeon, dependencies and mypy", 30, 3⟩]

/-- Every distinct value of a `uses:` line in the CI workflows and composite
actions. -/
def ciUsedActions : List String :=
  ["actions/checkout@v4", "actions/setup-python@v5", "nick-fields/retry@v3",
   "./.github/actions/numba_cache", "./.github/actions/cpu_all_extras",
   "actions/create-github-app-token@v2", "pierotofy/set-swap-space@v1.0",
   "jlumbroso/free-disk-space@v1.3.1", "actions/cache/save@v4",
   "actions/cache/restore@v4", "pre-commit/action@v3.0.1",
   "codecov/codecov-action@v5", "actions/upload-artifact@v4",
   "actions/download-artifact@v4", "peter-evans/create-pull-request@v7",
   "stefanzweifel/git-auto-commit-action@v6",
   "pypa/gh-action-pypi-publish@release/v1", "ossf/scorecard-action@v2.4.2",
   "github/codeql-action/upload-sarif@v3", "crs-k/stale-branches@v8.2.1",
   "browniebroke/pre-commit-autoupdate-action@v1.0.0",
   "actions/setup-node@v4"]

/-- `isInfixChars p l` holds when `p` occurs contiguously inside `l`. -/
def isInfixChars : List Char → List Char → Bool
  | p, [] => isPrefixChars p []
  | p, c :: rest => isPrefixChars p (c :: rest) || isInfixChars p rest

/-- Substring test on strings. -/
def strContainsSub (s pat : String) : Bool := isInfixChars pat.data s.data

/-- C3: every retry wrapper in the CI configuration uses
`timeout_minutes: 30` and `max_attempts: 3`, and `nick-fields/retry@v3` is
the only retry/fault-tolerance action referenced by any `uses:` line. -/
theorem retry_wrappers_uniform :
    (allRetrySteps.all fun s =>
      s.timeout_minutes == 30 && s.max_attempts == 3) = true ∧
    (ciUsedActions.all fun a =>
      !(strContainsSub a "retry") || a == "nick-fields/retry@v3") = true :=
  ⟨rfl, rfl⟩

/-! ## Optional extras groups in pip install commands

Each pip install of the aeon package across the CI configuration, with the
extras groups it requests.  The `cpu_all_extras` entries list the extras its
`Install dependencies` step resolves to for each caller's
`additional_extras` input. -/

structure PipInstall where
  workflow : String
  job : String
  extras : List String
deriving DecidableEq, Repr

def ciPipInstalls : List PipInstall :=
  [⟨"Periodic tests", "run-notebook-examples", ["all_extras", "binder", "dev"]⟩,
   ⟨"Periodic tests", "test-core-imports", []⟩,
   ⟨"Periodic tests", "test-no-soft-deps", ["dev"]⟩,
   ⟨"Periodic tests", "pytest", ["all_extras", "dev"]⟩,
   ⟨"Periodic tests", "doctests", ["all_extras", "dev"]⟩,
   ⟨"Periodic tests", "multithreaded-estimators", ["all_extras", "dev"]⟩,
   ⟨"Periodic tests", "codecov", ["all_extras", "unstable_extras", "dev"]⟩,
   ⟨"Release", "test-wheels (Windows)", ["all_extras", "dev"]⟩,
   ⟨"Release", "test-wheels (Unix)", ["all_extras", "dev"]⟩,
   ⟨"PR pytest", "test-no-soft-deps", ["dev"]⟩,
   ⟨"PR pytest", "pytest (cpu_all_extras)", ["all_extras", "dev"]⟩,
   ⟨"PR pytest", "doctests (cpu_all_extras)", ["all_extras", "dev"]⟩,
   ⟨"PR pytest", "multithreaded-estimators (cpu_all_extras)", ["all_extras", "dev"]⟩,
   ⟨"PR pytest", "codecov (cpu_all_extras)", ["all_extras", "unstable_extras", "dev"]⟩,
   ⟨"PR typecheck", "typecheck", ["all_extras", "unstable_extras", "dev"]⟩]

/-- The optional extras groups of the package named in the specification. -/
def specExtrasGroups : List String :=
  ["all_extras", "dev", "unstable_extras", "binder"]

/-- C4: every optional extras group requested by a pip install command in the
CI workflows and composite actions is one of `all_extras`, `dev`,
`unstable_extras`, `binder`. -/
theorem pip_extras_within_spec_groups :
    (ciPipInstalls.all fun p =>
      p.extras.all fun e => specExtrasGroups.contains e) = true := rfl

/-! ## Test-suite run commands and concurrency-adjacent flags

Every `run:` command invoking pytest across the CI workflows.  The `PR
pytest` / `pytest` command interpolates a GitHub boolean expression, embedded
here as a `Bool` parameter. -/

/-- Command of `PR pytest` / `pytest` / `Run tests`: the interpolated
expression decides `--prtesting true/false`. -/
def prPytestRunCommand (prTesting : Bool) : String :=
  "python -m pytest -n logical --prtesting " ++
    (if prTesting then "true" else "false")

/-- Command of the `multithreaded-estimators` jobs (identical in
`Periodic tests` and `PR pytest`). -/
def multithreadedRunCommand : String :=
  "python -m pytest aeon/testing/tests/ --enablethreading true -k \"check_estimator_multithreading\""

def ciPytestRunCommands (prTesting : Bool) : List (String × String × String) :=
  [("Periodic tests", "test-no-soft-deps", "python -m pytest -n logical"),
   ("Periodic tests", "pytest", "python -m pytest -n logical"),
   ("Periodic tests", "doctests",
     "python -m pytest -n logical --doctest-only --doctest-continue-on-failure"),
   ("Periodic tests", "multithreaded-estimators", multithreadedRunCommand),
   ("Periodic tests", "codecov",
     "python -m pytest -n logical --cov=aeon --cov-report=xml --timeout 1800"),
   ("Release", "test-wheels", "python -m pytest -n logical"),
   ("PR pytest", "test-no-soft-deps", "python -m pytest -n logical"),
   ("PR pytest", "pytest", prPytestRunCommand prTesting),
   ("PR pytest", "doctests",
     "python -m pytest -n logical --doctest-only --doctest-continue-on-failure"),
   ("PR pytest", "multithreaded-estimators", multithreadedRunCommand),
   ("PR pytest", "codecov",
     "python -m pytest -n logical --cov=aeon --cov-report=xml --timeout 1800")]

/-- Split a character list on spaces, keeping empty words. -/
def splitOnSpace : List Char → List (List Char)
  | [] => [[]]
  | c :: rest =>
    match splitOnSpace rest with
    | [] => if c == ' ' then [[], []] else [[c]]
    | w :: ws => if c == ' ' then [] :: w :: ws else (c :: w) :: ws

/-- The whitespace-separated tokens of a command line. -/
def tokens (s : String) : List String :=
  (splitOnSpace s.data).map String.mk

/-- Whether a command passes a given token. -/
def hasToken (cmd tok : String) : Bool := (tokens cmd).contains tok

/-- The argument following the first `-n` token, if any: the pytest-xdist
worker-count option. -/
def xdistArg : List String → Option String
  | [] => none
  | "-n" :: a :: _ => some a
  | _ :: rest => xdistArg rest

/-- Whether a command requests pytest-xdist parallelism. -/
def usesXdist (cmd : String) : Bool := hasToken cmd "-n"

/-- C6 (counterexample): the `multithreaded-estimators` run command is a
concurrency-adjacent mechanism other than `pytest -n logical` and GitHub
concurrency groups: it passes `--enablethreading true` and does not use
`-n logical`. -/
theorem multithreaded_run_has_enablethreading :
    ("Periodic tests", "multithreaded-estimators", multithreadedRunCommand) ∈
      ciPytestRunCommands true ∧
    hasToken multithreadedRunCommand "--enablethreading" = true ∧
    hasToken multithreadedRunCommand "true" = true ∧
    usesXdist multithreadedRunCommand = false := by
  refine ⟨?_, rfl, rfl, rfl⟩
  simp [ciPytestRunCommands]

/-- C6 (amended): every pytest invocation that requests xdist parallelism
uses exactly `-n logical` (indeed starts with `python -m pytest -n logical`),
and the only other concurrency-adjacent flag, `--enablethreading`, appears
only in the `multithreaded-estimators` run command. -/
theorem pytest_parallelism_is_n_logical (prTesting : Bool) :
    ((ciPytestRunCommands prTesting).all fun e =>
      !(usesXdist e.2.2) ||
        (xdistArg (tokens e.2.2) == some "logical" &&
          strIsPrefixOf "python -m pytest -n logical" e.2.2)) = true ∧
    ((ciPytestRunCommands prTesting).all fun e =>
      !(hasToken e.2.2 "--enablethreading") ||
        e.2.2 == multithreadedRunCommand) = true := by
  cases prTesting <;> exact ⟨rfl, rfl⟩

/-- Witness for the amended C6 at a concrete value of the interpolated
pull-request-testing expression. -/
theorem pytest_parallelism_is_n_logical_witness :
    ((ciPytestRunCommands true).all fun e =>
      !(usesXdist e.2.2) ||
        (xdistArg (tokens e.2.2) == some "logical" &&
          strIsPrefixOf "python -m pytest -n logical" e.2.2)) = true :=
  (pytest_parallelism_is_n_logical true).1

/-! ## Classification of the supplied repository files

The repository excerpt holds 18 files; some files concatenate several YAML or
markdown documents, so each file is assigned the list of kinds of its
constituent documents. -/

inductive FileKind where
  | changelog
  | docPage
  | workflowYaml
  | actionYaml
  | precommitConfig
  | notebook
  /-- algorithmic program source code: scheduler, protocol, storage engine,
  concurrency core, estimator implementation, ... -/
  | programSource
deriving DecidableEq, Repr

/-- Every file of the supplied repository excerpt with the kinds of the
documents it contains. -/
def repoFiles : List (String × List FileKind) :=
  [("docs/api_reference/utils.md", [.docPage]),
   ("docs/changelogs/v0/v0.11.md", [.changelog]),
   ("examples/transformations/signature_method.ipynb", [.notebook]),
   (".github/actions/cpu_all_extras/action.yml", [.actionYaml]),
   (".github/workflows/issue_comment_posted.yml", [.workflowYaml]),
   (".github/workflows/update_contributors.yml", [.workflowYaml, .workflowYaml]),
   (".github/workflows/pr_labelled.yml", [.workflowYaml]),
   (".github/workflows/periodic_tests.yml", [.workflowYaml]),
   (".github/workflows/issue_assigned.yml", [.workflowYaml]),
   ("unnamed/part_000 (v1.2.0 changelog)", [.changelog]),
   ("unnamed/part_001 (v0.6.0 changelog)", [.changelog]),
   ("unnamed/part_002 (v1.1.0 changelog)", [.changelog]),
   ("unnamed/part_003 (changelog index; Numba cache setup action)",
     [.changelog, .actionYaml]),
   ("unnamed/part_004 (Release workflow)", [.workflowYaml]),
   ("unnamed/part_005 (PR opened workflow)", [.workflowYaml]),
   ("unnamed/part_006 (Weekly GitHub maintenance; PR typecheck workflows)",
     [.workflowYaml, .workflowYaml]),
   ("unnamed/part_007 (Issue comment edited workflow)", [.workflowYaml]),
   ("unnamed/part_008 (pre-commit configuration)", [.precommitConfig])]

/-- The file categories the specification allows. -/
def specAllowedKinds : List FileKind :=
  [.changelog, .docPage, .workflowYaml, .actionYaml, .precommitConfig,
   .notebook]

/-- C7: the repository excerpt consists of 18 files, each a changelog,
documentation page, workflow or composite-action YAML, pre-commit
configuration or example notebook, and none contains algorithmic program
source code. -/
theorem repo_files_no_program_source :
    repoFiles.length = 18 ∧
    (repoFiles.all fun f =>
      f.2.all fun k => specAllowedKinds.contains k) = true ∧
    (repoFiles.all fun f => !(f.2.contains .programSource)) = true :=
  ⟨rfl, rfl, rfl⟩

/-! ## Concurrency blocks and cancel-in-progress semantics

The `concurrency:` blocks of all eleven workflow documents, and a small
operational model of GitHub's cancel-in-progress behaviour. -/

/-- The `group:` template of a `concurrency:` block. -/
inductive ConcGroup where
  /-- `github.workflow` -/
  | workflowName
  /-- `github.workflow` plus `github.head_ref || github.ref` -/
  | workflowAndRef
  /-- `github.workflow` plus `github.event.pull_request.number` -/
  | workflowAndPRNumber
  /-- `github.workflow` plus `github.event.issue.id` -/
  | workflowAndIssueId
  /-- `github.workflow` plus `github.event.comment.id` -/
  | workflowAndCommentId
deriving DecidableEq, Repr

structure ConcurrencyCfg where
  group : ConcGroup
  cancelInProgress : Bool
deriving DecidableEq, Repr

/-- Each workflow document with its `concurrency:` block, if it declares
one. -/
def workflowConcurrency : List (String × Option ConcurrencyCfg) :=
  [("Periodic tests", some ⟨.workflowName, true⟩),
   ("Update contributors", none),
   ("PR pytest", some ⟨.workflowAndRef, true⟩),
   ("Release", none),
   ("PR opened", none),
   ("Weekly GitHub maintenance", none),
   ("PR typecheck", some ⟨.workflowAndRef, true⟩),
   ("Issue comment edited", some ⟨.workflowAndCommentId, true⟩),
   ("Issue comment posted", none),
   ("Issue assigned", some ⟨.workflowAndIssueId, true⟩),
   ("Pull request labelled", some ⟨.workflowAndPRNumber, true⟩)]

/-- An event of the operational model: a workflow run starts in a concurrency
group, or a run finishes. -/
inductive CiEvent where
  | start (group : String) (id : Nat)
  | finish (id : Nat)

/-- One step of GitHub's scheduler for groups configured with
`cancel-in-progress: true` (the value every concurrency-declaring workflow
here sets): starting a run cancels every in-progress run of its group. -/
def applyEvent (s : List (String × Nat)) : CiEvent → List (String × Nat)
  | .start g id => (g, id) :: s.filter fun r => !(r.1 == g)
  | .finish id => s.filter fun r => !(r.2 == id)

/-- The in-progress runs after a trace of events, starting from none. -/
def runTrace (events : List CiEvent) : List (String × Nat) :=
  events.foldl applyEvent []

/-- No concurrency group ever holds more than one in-progress run. -/
def atMostOneRunPerGroup (s : List (String × Nat)) : Prop :=
  ∀ g, (s.filter fun r => r.1 == g).length ≤ 1

theorem applyEvent_preserves (s : List (String × Nat)) (e : CiEvent)
    (h : atMostOneRunPerGroup s) : atMostOneRunPerGroup (applyEvent s e) := by
  cases e with
  | start g id =>
    intro g'
    by_cases hg : g' = g
    · subst hg
      show ((((g', id) :: s.filter fun r => !(r.1 == g')).filter
        fun r => r.1 == g')).length ≤ 1
      have hnil : ((s.filter fun r => !(r.1 == g')).filter
          fun r => r.1 == g') = [] := by
        rw [List.filter_eq_nil_iff]
        intro a ha
        have := List.of_mem_filter ha
        simpa using this
      simp [List.filter, hnil]
    · show ((((g, id) :: s.filter fun r => !(r.1 == g)).filter
        fun r => r.1 == g')).length ≤ 1
      have hhead : (((g, id) : String × Nat).1 == g') = false := by
        simp [Ne.symm hg]
      calc ((((g, id) :: s.filter fun r => !(r.1 == g)).filter
              fun r => r.1 == g')).length
          = (((s.filter fun r => !(r.1 == g)).filter
              fun r => r.1 == g')).length := by simp [List.filter, hhead]
        _ ≤ ((s.filter fun r => r.1 == g')).length :=
            ((List.filter_sublist s).filter _).length_le
        _ ≤ 1 := h g'
  | finish id =>
    intro g'
    calc (((s.filter fun r => !(r.2 == id)).filter
            fun r => r.1 == g')).length
        ≤ ((s.filter fun r => r.1 == g')).length :=
          ((List.filter_sublist s).filter _).length_le
      _ ≤ 1 := h g'

theorem runTrace_invariant (events : List CiEvent) :
    atMostOneRunPerGroup (runTrace events) := by
  suffices h : ∀ s, atMostOneRunPerGroup s →
      atMostOneRunPerGroup (events.foldl applyEvent s) by
    exact h [] (fun g => by simp [List.filter])
  induction events with
  | nil => exact fun s hs => hs
  | cons e es ih =>
    intro s hs
    exact ih (applyEvent s e) (applyEvent_preserves s e hs)

/-- C10: every workflow that declares a `concurrency:` block sets
`cancel-in-progress: true`, and under the cancel-in-progress semantics no
concurrency group ever has more than one workflow run in progress. -/
theorem concurrency_cancel_in_progress :
    (∀ w ∈ workflowConcurrency, ∀ c, w.2 = some c →
      c.cancelInProgress = true) ∧
    (∀ events : List CiEvent, atMostOneRunPerGroup (runTrace events)) := by
  constructor
  · decide
  · exact runTrace_invariant

/-- Witness for C10: the `Periodic tests` configuration and a concrete trace
where a second run of the same group starts. -/
theorem concurrency_cancel_in_progress_witness :
    (ConcurrencyCfg.mk .workflowName true).cancelInProgress = true ∧
    atMostOneRunPerGroup
      (runTrace [.start "Periodic tests" 0, .start "Periodic tests" 1]) :=
  ⟨concurrency_cancel_in_progress.1 ("Periodic tests", some ⟨.workflowName, true⟩)
      (by decide) ⟨.workflowName, true⟩ rfl,
   concurrency_cancel_in_progress.2
      [.start "Periodic tests" 0, .start "Periodic tests" 1]⟩

end AeonCI
